import Mathlib

/-!
Verification of the IV1201 Recruitment API data-access layer.

This file gives a shallow embedding of `src/integration/RecruitmentDAO.js`
and the DTO/validator layer it uses, and proves properties of the embedded
operations.  Database tables are lists of rows; the PostgreSQL connection is
modelled by a `PgState` that distinguishes committed state from the view of
an open transaction, with PostgreSQL semantics for BEGIN / COMMIT / ROLLBACK
issued inside or outside a transaction (a BEGIN inside a transaction is a
warning no-op, a COMMIT always ends the open transaction, a statement outside
a transaction autocommits).  JavaScript execution is modelled by a
state-and-exception monad `M`; a thrown JS error is `Except.error ()`.
Infrastructure failures of individual queries are driven by a failure
schedule (a predicate on the running query counter; the constant-false
schedule is the failure-free run), matching the fact that any
`client.query` call can fail with a timeout or connection error.
-/

namespace Recruitment

/-- Row of table `login_info` (columns used by the DAO). -/
structure LoginRow where
  username : String
  email : String
  password : String
  personId : Int
deriving Repr, DecidableEq

/-- Row of table `person`. -/
structure PersonRow where
  id : Int
  firstName : String
  lastName : String
  personalNumber : String
  roleId : Int
deriving Repr, DecidableEq

/-- Row of table `competence`. -/
structure CompetenceRow where
  id : Int
  jobId : Int
  ctype : String
deriving Repr, DecidableEq

/-- Row of table `application`. -/
structure ApplicationRow where
  id : Int
  yearsOfExperience : Int
  competenceId : Int
  personId : Int
deriving Repr, DecidableEq

/-- Row of table `application_status`; `decision` is the stored text value,
`recruiterId` is the nullable `recruiter_id` column. -/
structure StatusRow where
  id : Int
  applicationId : Int
  decision : String
  recruiterId : Option Int
deriving Repr, DecidableEq

/-- Row of table `applicant_availability`.  Dates are ISO `YYYY-MM-DD`
strings; for well-formed ISO dates the SQL `DATE` order coincides with
lexicographic string order. -/
structure AvailabilityRow where
  personId : Int
  fromDate : String
  toDate : String
deriving Repr, DecidableEq

/-- The relational store, plus the next values of the id sequences used by
the `RETURNING id` inserts. -/
structure DB where
  loginInfo : List LoginRow
  persons : List PersonRow
  competences : List CompetenceRow
  applications : List ApplicationRow
  statuses : List StatusRow
  availabilities : List AvailabilityRow
  nextPersonId : Int
  nextApplicationId : Int
  nextStatusId : Int
deriving Repr, DecidableEq

/-! Enumerations.  `decisionErrorCodes` is `src/util/decisionErrorCodes.js`.
The other enum modules are required by the sources but their files are not
part of the snapshot; their values are modelled from the spec and from the
doc comments in the sources that cite them (role numbering from the DAO doc
comment "0 for Invalid, 1 for Recruiter, 2 for Applicant" and the
`role_id = 2` filter; decision literals from the SQL and the spec state
machine; filter sentinels from the `ApplicationFilterDTO` doc comment). -/

namespace recruitmentRoles

/-- Modelled from the spec: role id of an invalid / unset role. -/
def Invalid : Int := 0

/-- Modelled from the spec: role id of a recruiter. -/
def Recruiter : Int := 1

/-- Modelled from the spec: role id of an applicant. -/
def Applicant : Int := 2

end recruitmentRoles

namespace userErrCodes

/-- Modelled from the spec: success code of `signinUser` / `signupUser`.
Only distinctness of the codes matters to the control flow. -/
def OK : Int := 0

/-- Modelled from the spec: no credential row matched at signin. -/
def LoginFailure : Int := 1

/-- Modelled from the spec: the requested email already exists. -/
def ExistentEmail : Int := 2

/-- Modelled from the spec: the requested username already exists. -/
def ExistentUsername : Int := 3

end userErrCodes

namespace registrationErrEnum

/-- Modelled from the spec: success code of `registerNewApplication`. -/
def OK : Int := 0

/-- Modelled from the spec: the username resolved to no person. -/
def InvalidUsername : Int := 1

/-- Modelled from the spec: the resolved role is not Applicant. -/
def InvalidRole : Int := 2

/-- Modelled from the spec: the competence id is not in the reference set. -/
def InvalidCompetence : Int := 3

/-- Modelled from the spec: a matching application already exists. -/
def ExistentApplication : Int := 4

end registrationErrEnum

namespace applicationErrorCodes

/-- Modelled from the spec: success code of `getApplication`. -/
def OK : Int := 0

/-- Modelled from the spec: no application row matched the requested id. -/
def InvalidID : Int := 1

end applicationErrorCodes

namespace decisionErrorCodes

/-- Code `OK` of `src/util/decisionErrorCodes.js`. -/
def OK : Int := 0

/-- Code `InvalidUsername` of `src/util/decisionErrorCodes.js`. -/
def InvalidUsername : Int := 1

/-- Code `InvalidApplication` of `src/util/decisionErrorCodes.js`. -/
def InvalidApplication : Int := 2

/-- Code `ExistentDecision` of `src/util/decisionErrorCodes.js`. -/
def ExistentDecision : Int := 3

/-- Code `InvalidDecision` of `src/util/decisionErrorCodes.js`. -/
def InvalidDecision : Int := 4

/-- Code `InvalidRole` of `src/util/decisionErrorCodes.js`. -/
def InvalidRole : Int := 5

end decisionErrorCodes

namespace decisionsEnum

/-- Modelled from the spec: the decision literal for an undecided
application, the string inserted by the registration SQL. -/
def Unhandled : String := "Unhandled"

/-- Modelled from the spec: the accepting decision literal. -/
def Accepted : String := "Accepted"

/-- Modelled from the spec: the rejecting decision literal. -/
def Rejected : String := "Rejected"

end decisionsEnum

namespace filterEmptyParamEnum

/-- Modelled from the spec: sentinel for an unset name filter (the
`ApplicationFilterDTO` doc comment names the `NONE` string). -/
def Name : String := "NONE"

/-- Modelled from the spec: sentinel for an unset competence filter. -/
def CompetenceID : Int := 0

/-- Modelled from the spec: sentinel date for an unset date filter. -/
def Date : String := "0001-01-01"

/-- Modelled from the spec: sentinel page value meaning "all records". -/
def Page : Int := 0

end filterEmptyParamEnum

/-! Validators (`src/util/Validators.js`), as boolean predicates.  The
assertion-throwing JS methods are recovered below by guarding the DTO
constructors on these predicates. -/

/-- The apostrophe character, which `isAlpha` is told to ignore. -/
def aposChar : Char := Char.ofNat 39

/-- Letter of the `sv-SE` alphabet used by `validator.isAlpha`. -/
def isSvLetter (c : Char) : Bool :=
  c.isAlpha || c == 'Å' || c == 'Ä' || c == 'Ö' || c == 'É' ||
    c == 'å' || c == 'ä' || c == 'ö' || c == 'é'

/-- Embeds `Validators.isAlphanumericString`: nonempty, ASCII letters and
digits only. -/
def isAlphanumericB (s : String) : Bool :=
  !s.toList.isEmpty && s.toList.all (fun c => c.isAlpha || c.isDigit)

/-- Embeds `Validators.isAlphaString`: `sv-SE` letters with apostrophes
ignored (stripped before the alphabetic check). -/
def isAlphaSvAposB (s : String) : Bool :=
  let t := s.toList.filter (fun c => c != aposChar)
  !t.isEmpty && t.all isSvLetter

/-- Embeds `Validators.isDescriptionString`: `sv-SE` letters with spaces
ignored. -/
def isDescriptionB (s : String) : Bool :=
  let t := s.toList.filter (fun c => c != ' ')
  !t.isEmpty && t.all isSvLetter

/-- Embeds `Validators.isIntegerBetween` on integer inputs. -/
def isIntegerBetweenB (v lo hi : Int) : Bool :=
  decide (lo ≤ v) && decide (v ≤ hi)

/-- Embeds `Validators.isPositiveWholeNumber` on integer inputs. -/
def isPositiveWholeNumberB (v : Int) : Bool := decide (1 ≤ v)

/-- Embeds `Validators.isNonNegativeWholeNumber` on integer inputs. -/
def isNonNegativeWholeNumberB (v : Int) : Bool := decide (0 ≤ v)

/-- Embeds `Validators.isNonNegativeNumber` on integer inputs. -/
def isNonNegativeNumberB (v : Int) : Bool := decide (0 ≤ v)

/-- Numeric value of a decimal digit character. -/
def digitVal (c : Char) : Int := Int.ofNat c.toNat - 48

/-- Leap-year rule of the Gregorian calendar. -/
def isLeapYear (y : Int) : Bool :=
  (y % 4 == 0 && y % 100 != 0) || y % 400 == 0

/-- Number of days of a month. -/
def daysInMonth (y m : Int) : Int :=
  if m == 2 then (if isLeapYear y then 29 else 28)
  else if m == 4 || m == 6 || m == 9 || m == 11 then 30
  else 31

/-- Embeds `Validators.isDateFormat`: strict `YYYY-MM-DD` shape and an
actual calendar date. -/
def isDateFormatB (s : String) : Bool :=
  match s.toList with
  | [y1, y2, y3, y4, h1, m1, m2, h2, d1, d2] =>
    (y1.isDigit && y2.isDigit && y3.isDigit && y4.isDigit &&
     h1 == '-' && m1.isDigit && m2.isDigit && h2 == '-' &&
     d1.isDigit && d2.isDigit) &&
    (let y := 1000 * digitVal y1 + 100 * digitVal y2 + 10 * digitVal y3 + digitVal y4
     let m := 10 * digitVal m1 + digitVal m2
     let d := 10 * digitVal d1 + digitVal d2
     decide (1 ≤ m) && decide (m ≤ 12) && decide (1 ≤ d) && decide (d ≤ daysInMonth y m))
  | _ => false

/-- Modelled from the spec: `Validators.isDecision` is called by
`DecisionDTO` and `ApplicationDTO` but its definition is missing from the
snapshot; per the spec a decision is one of the three literals. -/
def isDecisionB (d : String) : Bool :=
  d == decisionsEnum.Unhandled || d == decisionsEnum.Accepted ||
    d == decisionsEnum.Rejected

/-- Lexicographic order on character lists. -/
def charListLt : List Char → List Char → Bool
  | [], [] => false
  | [], _ :: _ => true
  | _ :: _, [] => false
  | a :: as, b :: bs => decide (a < b) || (a == b && charListLt as bs)

/-- Order used for the SQL `DATE` comparisons and `ORDER BY` on dates; for
well-formed ISO date strings this is the chronological order. -/
def strLeB (a b : String) : Bool := a == b || charListLt a.toList b.toList

/-! DTO carriers.  The self-validating JS constructors throw an assertion
error on invalid fields; they are embedded below as monadic constructors
guarded by the validator predicates. -/

/-- Carrier of `UserDTO` (`src/model/UserDTO.js`). -/
structure UserDTO where
  username : String
  roleID : Int
  errorCode : Int
deriving Repr, DecidableEq

/-- Carrier of `RegistrationDTO` (`src/model/RegistrationDTO.js`). -/
structure RegistrationDTO where
  applicationID : Int
  errorCode : Int
deriving Repr, DecidableEq

/-- Carrier of `DecisionDTO` (`src/model/DecisionDTO.js`). -/
structure DecisionDTO where
  decision : String
  errorCode : Int
deriving Repr, DecidableEq

/-- Element of the applications list: the row objects built by
`getApplicationsList` from the query result. -/
structure ApplicationsListRow where
  applicationID : Int
  firstName : String
  lastName : String
deriving Repr, DecidableEq

/-- Carrier of `ApplicationsListDTO` (`src/model/ApplicationsListDTO.js`). -/
structure ApplicationsListDTO where
  applications : List ApplicationsListRow
deriving Repr, DecidableEq

/-- The competence object `{id, type}` carried by `ApplicationDTO`. -/
structure CompetenceObj where
  id : Int
  ctype : String
deriving Repr, DecidableEq

/-- Carrier of `ApplicationDTO` (`ApplicationDTO.js`). -/
structure ApplicationDTO where
  applicationID : Int
  firstName : String
  lastName : String
  competence : CompetenceObj
  yearsOfExperience : Int
  dateFrom : String
  dateTo : String
  decision : String
  errorCode : Int
deriving Repr, DecidableEq

/-- Carrier of `SignupDTO` (`src/model/SignupDTO.js`). -/
structure SignupDTO where
  firstName : String
  lastName : String
  personalNumber : String
  email : String
  username : String
  password : String
deriving Repr, DecidableEq

/-- Carrier of `ApplicationInfoDTO` (`ApplicationInfoDTO.js`). -/
structure ApplicationInfoDTO where
  username : String
  competenceID : Int
  yearsOfExperience : Int
  dateFrom : String
  dateTo : String
deriving Repr, DecidableEq

/-- Carrier of `ApplicationFilterDTO` (`src/model/ApplicationFilterDTO.js`);
unset filters carry the `filterEmptyParamEnum` sentinels. -/
structure ApplicationFilterDTO where
  name : String
  competenceID : Int
  dateFrom : String
  dateTo : String
  page : Int
deriving Repr, DecidableEq

/-! The PostgreSQL connection model. -/

/-- Connection state: the committed store plus, when a transaction is open,
the view of that transaction. -/
structure PgState where
  committed : DB
  tx : Option DB
deriving Repr, DecidableEq

/-- The store a statement reads and writes: the open transaction view if a
transaction is open, the committed store otherwise. -/
def PgState.view (s : PgState) : DB := s.tx.getD s.committed

/-- Semantics of `BEGIN`: opening a transaction inside a transaction is a
PostgreSQL warning no-op. -/
def PgState.pgBegin (s : PgState) : PgState :=
  match s.tx with
  | none => { s with tx := some s.committed }
  | some _ => s

/-- Semantics of `COMMIT`: commits the open transaction; outside a
transaction it is a warning no-op. -/
def PgState.pgCommit (s : PgState) : PgState :=
  match s.tx with
  | none => s
  | some v => { committed := v, tx := none }

/-- Semantics of `ROLLBACK`: discards the open transaction; outside a
transaction it is a warning no-op. -/
def PgState.pgRollback (s : PgState) : PgState :=
  { s with tx := none }

/-- Semantics of an ordinary statement: it reads and writes the current
view; outside a transaction the write is autocommitted. -/
def PgState.applyStmt (s : PgState) (eff : DB → α × DB) : α × PgState :=
  let (a, db) := eff s.view
  match s.tx with
  | some _ => (a, { s with tx := some db })
  | none => (a, { committed := db, tx := none })

/-! The JavaScript execution model. -/

/-- Execution state: the connection state, the failure schedule, and the
number of queries issued so far (the schedule decides whether query number
`idx` fails). -/
structure JsState where
  pg : PgState
  sched : Nat → Bool
  idx : Nat

/-- State-and-exception monad for the embedded JS; `Except.error ()` is a
thrown JS error. -/
def M (α : Type) : Type := JsState → Except Unit α × JsState

/-- Monadic return for `M`. -/
def M.pure (a : α) : M α := fun s => (Except.ok a, s)

/-- Monadic bind for `M`; a thrown error propagates with the current
state. -/
def M.bind (x : M α) (f : α → M β) : M β := fun s =>
  match x s with
  | (Except.ok a, s1) => f a s1
  | (Except.error e, s1) => (Except.error e, s1)

instance instMonadM : Monad M where
  pure := M.pure
  bind := M.bind

/-- Raise a JS error. -/
def throwJs : M α := fun s => (Except.error (), s)

/-- Embeds a JS `try { body } catch { handler }`. -/
def tryCatchJs (body handler : M α) : M α := fun s =>
  match body s with
  | (Except.ok a, s1) => (Except.ok a, s1)
  | (Except.error _, s1) => handler s1

/-- Embeds `_runQuery` (RecruitmentDAO.js lines 720-734) for one SQL
command, given as a transformation of the connection state.  One schedule
entry is consumed; on failure the statement has no effect, a `ROLLBACK` is
issued when the connection is up, and the error is rethrown. -/
def runSql (connected : Bool) (step : PgState → α × PgState) : M α := fun s =>
  if s.sched s.idx then
    let pg := if connected then s.pg.pgRollback else s.pg
    (Except.error (), { pg := pg, sched := s.sched, idx := s.idx + 1 })
  else
    let (a, pg) := step s.pg
    (Except.ok a, { pg := pg, sched := s.sched, idx := s.idx + 1 })

/-- Issue `BEGIN` through `_runQuery`. -/
def runBegin (connected : Bool) : M Unit :=
  runSql connected (fun s => ((), s.pgBegin))

/-- Issue `COMMIT` through `_runQuery`. -/
def runCommit (connected : Bool) : M Unit :=
  runSql connected (fun s => ((), s.pgCommit))

/-- Issue an ordinary statement through `_runQuery`. -/
def runQuery (connected : Bool) (eff : DB → α × DB) : M α :=
  runSql connected (fun s => s.applyStmt eff)

/-- Issue a read-only query through `_runQuery`. -/
def runSelect (connected : Bool) (q : DB → α) : M α :=
  runQuery connected (fun db => (q db, db))

/-! The self-validating DTO constructors.  Each embeds the corresponding JS
constructor: the validators run in order and an assertion failure is a
thrown JS error. -/

/-- Embeds `new UserDTO(username, roleID, errorCode)`. -/
def mkUserDTO (username : String) (roleID errorCode : Int) : M UserDTO :=
  if isAlphanumericB username && isIntegerBetweenB roleID 0 2 then
    pure ⟨username, roleID, errorCode⟩
  else throwJs

/-- Embeds `new RegistrationDTO(applicationID, errorCode)`. -/
def mkRegistrationDTO (applicationID errorCode : Int) : M RegistrationDTO :=
  if isNonNegativeWholeNumberB applicationID then
    pure ⟨applicationID, errorCode⟩
  else throwJs

/-- Embeds `new DecisionDTO(decision, errorCode)`. -/
def mkDecisionDTO (decision : String) (errorCode : Int) : M DecisionDTO :=
  if isDecisionB decision then pure ⟨decision, errorCode⟩ else throwJs

/-- Embeds `Validators.isApplication` on a list element. -/
def isApplicationB (r : ApplicationsListRow) : Bool :=
  isPositiveWholeNumberB r.applicationID && isAlphaSvAposB r.firstName &&
    isAlphaSvAposB r.lastName

/-- Embeds `new ApplicationsListDTO(applications)`: every element is
validated with `Validators.isApplication`. -/
def mkApplicationsListDTO (rows : List ApplicationsListRow) :
    M ApplicationsListDTO :=
  if rows.all isApplicationB then pure ⟨rows⟩ else throwJs

/-- Embeds `Validators.isCompetence`. -/
def isCompetenceB (c : CompetenceObj) : Bool :=
  isPositiveWholeNumberB c.id && isDescriptionB c.ctype

/-- Embeds `new ApplicationDTO(...)`. -/
def mkApplicationDTO (applicationID : Int) (firstName lastName : String)
    (competence : CompetenceObj) (yearsOfExperience : Int)
    (dateFrom dateTo decision : String) (errorCode : Int) : M ApplicationDTO :=
  if isPositiveWholeNumberB applicationID && isAlphaSvAposB firstName &&
      isAlphaSvAposB lastName && isCompetenceB competence &&
      isNonNegativeNumberB yearsOfExperience && isDateFormatB dateFrom &&
      isDateFormatB dateTo && isDecisionB decision then
    pure ⟨applicationID, firstName, lastName, competence, yearsOfExperience,
      dateFrom, dateTo, decision, errorCode⟩
  else throwJs

/-! The embedded DAO (`src/integration/RecruitmentDAO.js`).  Every operation
takes the shared connection liveness flag `connected` (the value of
`client._connected` read by `_checkConnection`), constant for the duration
of one call. -/

/-- Result rows of the `checkLoginQuery` join of `login_info` and `person`
(lines 74-81): pairs of username and role id. -/
def loginQuery (db : DB) (username passwordHash : String) :
    List (String × Int) :=
  (db.loginInfo.filter
      (fun r => r.username == username && r.password == passwordHash)).flatMap
    (fun r => (db.persons.filter (fun p => p.id == r.personId)).map
      (fun p => (r.username, p.roleId)))

/-- Embeds `_generatePasswordHash` (lines 745-752); the pbkdf2 primitive is
a parameter of the model. -/
def generatePasswordHash (pbkdf : String → String → String)
    (globalSalt username password : String) : String :=
  pbkdf password (globalSalt ++ "_" ++ username)

/-- Embeds `signinUser` (lines 71-108). -/
def signinUser (connected : Bool) (pbkdf : String → String → String)
    (globalSalt username password : String) : M (Option UserDTO) :=
  let passwordHash := generatePasswordHash pbkdf globalSalt username password
  tryCatchJs
    (if !connected then pure none
     else do
      runBegin connected
      let results ← runSelect connected
        (fun db => loginQuery db username passwordHash)
      let retValue ← match results with
        | [] =>
          mkUserDTO username recruitmentRoles.Invalid userErrCodes.LoginFailure
        | (u, roleId) :: _ => mkUserDTO u roleId userErrCodes.OK
      runCommit connected
      pure (some retValue))
    (pure none)

/-- Result rows of `checkEmailQuery` (lines 120-125). -/
def emailQuery (db : DB) (email : String) : List LoginRow :=
  db.loginInfo.filter (fun r => r.email == email)

/-- Result rows of `checkUsernameQuery` (lines 127-132). -/
def usernameQuery (db : DB) (username : String) : List LoginRow :=
  db.loginInfo.filter (fun r => r.username == username)

/-- Effect of the `enterNewUser` CTE insert (lines 135-147): one statement
inserting the `person` row and the `login_info` row together. -/
def insertNewUser (db : DB) (s : SignupDTO) (passwordHash : String)
    (roleId : Int) : Unit × DB :=
  ((), { db with
    persons := db.persons ++
      [⟨db.nextPersonId, s.firstName, s.lastName, s.personalNumber, roleId⟩],
    loginInfo := db.loginInfo ++
      [⟨s.username, s.email, passwordHash, db.nextPersonId⟩],
    nextPersonId := db.nextPersonId + 1 })

/-- Embeds `signupUser` (lines 117-179). -/
def signupUser (connected : Bool) (pbkdf : String → String → String)
    (globalSalt : String) (s : SignupDTO) : M (Option UserDTO) :=
  let passwordHash := generatePasswordHash pbkdf globalSalt s.username s.password
  tryCatchJs
    (if !connected then pure none
     else do
      runBegin connected
      let emailCheck ← runSelect connected (fun db => emailQuery db s.email)
      let usernameCheck ← runSelect connected
        (fun db => usernameQuery db s.username)
      let retValue ←
        if emailCheck.length > 0 then
          mkUserDTO s.username recruitmentRoles.Invalid userErrCodes.ExistentEmail
        else if usernameCheck.length > 0 then
          mkUserDTO s.username recruitmentRoles.Invalid
            userErrCodes.ExistentUsername
        else do
          let _ ← runQuery connected
            (fun db => insertNewUser db s passwordHash recruitmentRoles.Applicant)
          mkUserDTO s.username recruitmentRoles.Applicant userErrCodes.OK
      runCommit connected
      pure (some retValue))
    (pure none)

/-- Result rows of `getPersonIDQuery` (lines 688-693): the `person_id`
column of the credential rows matching the username. -/
def personIdQuery (db : DB) (username : String) : List Int :=
  (db.loginInfo.filter (fun r => r.username == username)).map (fun r => r.personId)

/-- The `personID` local of `_getPersonID`: `-1` when no row matched,
otherwise the first `person_id`. -/
def personIdResult (rows : List Int) : Int :=
  match rows with
  | [] => -1
  | pid :: _ => pid

/-- Embeds `_getPersonID` (lines 686-718); returns `none` for the JS
`null` of the connection-down path, and rethrows query errors. -/
def _getPersonID (connected : Bool) (username : String) : M (Option Int) :=
  if !connected then pure none
  else do
    runBegin connected
    let rows ← runSelect connected (fun db => personIdQuery db username)
    let personID := personIdResult rows
    runCommit connected
    pure (some personID)

/-- Embeds `_getRoleID` (lines 540-566).  No call site survives in the
current source: `registerNewApplication` line 258 invokes `this.getRoleID`,
which is not a method of the class. -/
def _getRoleID (connected : Bool) (personID : Int) : M Int := do
  runBegin connected
  let rows ← runSelect connected
    (fun db => (db.persons.filter (fun p => p.id == personID)).map
      (fun p => p.roleId))
  let roleID := match rows with
    | [] => -1
    | r :: _ => r
  runCommit connected
  pure roleID

/-- The object returned by `_checkApplication`. -/
structure AppCheck where
  applicationStatusID : Int
  decision : String
deriving Repr, DecidableEq

/-- Result rows of `checkApplicationQuery` of `_checkApplication`
(lines 570-576): the `application_status` rows of the application id. -/
def statusQuery (db : DB) (applicationID : Int) : List StatusRow :=
  db.statuses.filter (fun r => r.applicationId == applicationID)

/-- Embeds `_checkApplication` (lines 568-604). -/
def _checkApplication (connected : Bool) (applicationID : Int) :
    M (Option AppCheck) :=
  if !connected then pure none
  else do
    runBegin connected
    let rows ← runSelect connected (fun db => statusQuery db applicationID)
    let applicationExistent : AppCheck := match rows with
      | [] => ⟨-1, decisionsEnum.Unhandled⟩
      | r :: _ => ⟨r.id, r.decision⟩
    runCommit connected
    pure (some applicationExistent)

/-- Embeds the call `this.getRoleID(personID)` at RecruitmentDAO.js line
258: the class defines `_getRoleID` only, so the property lookup yields
`undefined` and the call raises a `TypeError`. -/
def jsCallUndefinedGetRoleID : M Int := throwJs

/-- Result rows of `checkCompetenceQuery` (lines 267-272). -/
def competenceQuery (db : DB) (competenceID : Int) : List Int :=
  (db.competences.filter (fun c => c.id == competenceID)).map (fun c => c.id)

/-- Result rows of `checkApplicationQuery` of `registerNewApplication`
(lines 274-285): `application` joined with `applicant_availability` on the
person id, restricted to the person, the competence, and availability rows
with `from_date <= DATE(dateFrom)` and `to_date >= DATE(dateTo)`.  The
person id parameter is the JS value of `personID` (`null` only on the dead
connection-down path; an SQL comparison with `null` matches no row). -/
def overlapQuery (db : DB) (personID : Option Int) (info : ApplicationInfoDTO) :
    List Int :=
  ((db.applications.flatMap
      (fun a => (db.availabilities.filter
          (fun v => v.personId == a.personId)).map (fun v => (a, v)))).filter
    (fun av => some av.1.personId == personID &&
      av.1.competenceId == info.competenceID &&
      strLeB av.2.fromDate info.dateFrom && strLeB info.dateTo av.2.toDate)).map
    (fun av => av.1.id)

/-- Effect of the `registerNewApplicationQuery` CTE insert (lines 296-308):
one statement inserting the `application` row and its `application_status`
row (decision `Unhandled`, no recruiter), returning the new application
id. -/
def insertApplication (db : DB) (info : ApplicationInfoDTO)
    (personID : Option Int) : Int × DB :=
  (db.nextApplicationId,
   { db with
     applications := db.applications ++
       [⟨db.nextApplicationId, info.yearsOfExperience, info.competenceID,
         personID.getD (-1)⟩],
     statuses := db.statuses ++
       [⟨db.nextStatusId, db.nextApplicationId, decisionsEnum.Unhandled, none⟩],
     nextApplicationId := db.nextApplicationId + 1,
     nextStatusId := db.nextStatusId + 1 })

/-- Effect of `addApplicationAvailabilityQuery` (lines 310-314). -/
def insertAvailability (db : DB) (info : ApplicationInfoDTO)
    (personID : Option Int) : Unit × DB :=
  ((), { db with
    availabilities := db.availabilities ++
      [⟨personID.getD (-1), info.dateFrom, info.dateTo⟩] })

/-- Embeds `registerNewApplication` (lines 241-332).  The
`registrationConfirmation` and `errorChecker` locals are represented by an
`Option RegistrationDTO` holding the early error result if one was set
before the main block. -/
def registerNewApplication (connected : Bool) (info : ApplicationInfoDTO) :
    M (Option RegistrationDTO) :=
  tryCatchJs
    (if !connected then pure none
     else do
      runBegin connected
      let personID ← _getPersonID connected info.username
      let early ←
        if personID == some (-1) then
          (fun dto => some dto) <$>
            mkRegistrationDTO 0 registrationErrEnum.InvalidUsername
        else do
          let roleID ← jsCallUndefinedGetRoleID
          if roleID == -1 || roleID == recruitmentRoles.Recruiter then
            (fun dto => some dto) <$>
              mkRegistrationDTO 0 registrationErrEnum.InvalidRole
          else pure none
      let registrationConfirmation ← match early with
        | some dto => pure dto
        | none => do
          let checkApplicationRes ← runSelect connected
            (fun db => overlapQuery db personID info)
          let checkCompetenceRes ← runSelect connected
            (fun db => competenceQuery db info.competenceID)
          if checkCompetenceRes.length ≤ 0 then
            mkRegistrationDTO 0 registrationErrEnum.InvalidCompetence
          else match checkApplicationRes with
            | appId :: _ =>
              mkRegistrationDTO appId registrationErrEnum.ExistentApplication
            | [] => do
              let newId ← runQuery connected
                (fun db => insertApplication db info personID)
              let _ ← runQuery connected
                (fun db => insertAvailability db info personID)
              mkRegistrationDTO newId registrationErrEnum.OK
      runCommit connected
      pure (some registrationConfirmation))
    (pure none)

/-- Result rows of `getApplicationsQuery` of `_getApplications`
(lines 626-660) before ordering: `person` joined with `application` and
`applicant_availability` on the person id, each filter predicate disabled
when its parameter carries the converted empty value, and restricted to
`role_id = 2`. -/
def applicationsWhere (db : DB) (name : String) (competenceID : Int)
    (dateFrom dateTo : String) : List ApplicationsListRow :=
  ((db.persons.flatMap
      (fun p => (db.applications.filter (fun a => a.personId == p.id)).flatMap
        (fun a => (db.availabilities.filter
            (fun v => v.personId == p.id)).map (fun v => (p, a, v))))).filter
    (fun pav =>
      (name == "" || pav.1.firstName == name || pav.1.lastName == name) &&
      (competenceID == -1 || pav.2.1.competenceId == competenceID) &&
      (dateFrom == "" || strLeB dateFrom pav.2.2.fromDate) &&
      (dateTo == "" || strLeB pav.2.2.toDate dateTo) &&
      pav.1.roleId == 2)).map
    (fun pav => ⟨pav.2.1.id, pav.1.firstName, pav.1.lastName⟩)

/-- Ascending application-id order of the `ORDER BY application.id ASC`
clause. -/
def rowIdLe (x y : ApplicationsListRow) : Prop :=
  x.applicationID ≤ y.applicationID

instance : DecidableRel rowIdLe := fun _ _ => Int.decLe _ _

instance : IsTotal ApplicationsListRow rowIdLe :=
  ⟨fun x y => Int.le_total x.applicationID y.applicationID⟩

instance : IsTrans ApplicationsListRow rowIdLe :=
  ⟨fun _ _ _ h1 h2 => le_trans h1 h2⟩

/-- Full result of `getApplicationsQuery`, ordered ascending by application
id (a stable sort; SQL leaves the order among equal ids open). -/
def applicationsQueryRows (db : DB) (name : String) (competenceID : Int)
    (dateFrom dateTo : String) : List ApplicationsListRow :=
  List.insertionSort rowIdLe (applicationsWhere db name competenceID dateFrom dateTo)

/-- The parameter conversion of `_getApplications` (lines 607-624) followed
by the query: each filter field equal to its `filterEmptyParamEnum` sentinel
is converted to the empty value the SQL treats as "filter disabled". -/
def getApplicationsRows (db : DB) (f : ApplicationFilterDTO) :
    List ApplicationsListRow :=
  let name := if f.name == filterEmptyParamEnum.Name then "" else f.name
  let competenceID :=
    if f.competenceID == filterEmptyParamEnum.CompetenceID then -1
    else f.competenceID
  let dateFrom := if f.dateFrom == filterEmptyParamEnum.Date then "" else f.dateFrom
  let dateTo := if f.dateTo == filterEmptyParamEnum.Date then "" else f.dateTo
  applicationsQueryRows db name competenceID dateFrom dateTo

/-- Embeds `_getApplications` (lines 606-679); `none` is the JS `null` of
the connection-down path, and query errors are rethrown. -/
def _getApplications (connected : Bool) (f : ApplicationFilterDTO) :
    M (Option (List ApplicationsListRow)) :=
  if !connected then pure none
  else do
    runBegin connected
    let rows ← runSelect connected (fun db => getApplicationsRows db f)
    runCommit connected
    pure (some rows)

/-- Embeds `_getOffset` (lines 681-684). -/
def _getOffset (page limit : Int) : Int := (page - 1) * limit

/-- Embeds the page-window loop of `getApplicationsList` (lines 363-373):
up to `fuel` iterations starting at index `offset + i`, stopping at the end
of the list.  The loop runs only under `page > 0`, where the offset is
non-negative. -/
def pageLoop (rows : List ApplicationsListRow) (offset : Nat) :
    Nat → Nat → List ApplicationsListRow
  | 0, _ => []
  | fuel + 1, i =>
    if h : offset + i < rows.length then
      rows.get ⟨offset + i, h⟩ :: pageLoop rows offset fuel (i + 1)
    else []

/-- Embeds `getApplicationsList` (lines 342-383); `PAGELIMIT` is 25. -/
def getApplicationsList (connected : Bool) (f : ApplicationFilterDTO) :
    M (Option ApplicationsListDTO) :=
  let offset := _getOffset f.page 25
  tryCatchJs
    (do
      let applicationsRes ← _getApplications connected f
      match applicationsRes with
      | none => throwJs
      | some applicationsList => do
        let retList :=
          if f.page > filterEmptyParamEnum.Page then
            pageLoop applicationsList offset.toNat 25 0
          else applicationsList
        let dto ← mkApplicationsListDTO retList
        pure (some dto))
    (pure none)

/-- Row of the `getApplicationQuery` join of `getApplication`
(lines 428-441). -/
structure DetailRow where
  applicationId : Int
  firstName : String
  lastName : String
  competenceId : Int
  ctype : String
  yearsOfExperience : Int
  fromDate : String
  toDate : String
  decision : String
deriving Repr, DecidableEq

/-- Ascending availability-end order of the `ORDER BY to_date ASC`
clause. -/
def detailToDateLe (x y : DetailRow) : Prop := strLeB x.toDate y.toDate = true

instance : DecidableRel detailToDateLe := fun _ _ => instDecidableEqBool _ _

/-- Result rows of `getApplicationQuery`: the application joined with its
person, competence, availability and status rows, ordered by availability
end date. -/
def getApplicationRowsUnsorted (db : DB) (applicationID : Int) :
    List DetailRow :=
  ((((db.applications.filter (fun a => a.id == applicationID)).flatMap
      (fun a => (db.persons.filter (fun p => p.id == a.personId)).map
        (fun p => (a, p)))).flatMap
      (fun ap => (db.competences.filter
          (fun c => c.id == ap.1.competenceId)).map (fun c => (ap, c)))).flatMap
      (fun apc => (db.availabilities.filter
          (fun v => v.personId == apc.1.1.personId)).flatMap
        (fun v => (db.statuses.filter
            (fun st => st.applicationId == apc.1.1.id)).map
          (fun st => (⟨apc.1.1.id, apc.1.2.firstName, apc.1.2.lastName,
            apc.2.id, apc.2.ctype, apc.1.1.yearsOfExperience,
            v.fromDate, v.toDate, st.decision⟩ : DetailRow)))))

/-- Ordered result of `getApplicationQuery`. -/
def getApplicationRows (db : DB) (applicationID : Int) : List DetailRow :=
  List.insertionSort detailToDateLe (getApplicationRowsUnsorted db applicationID)

/-- Embeds `getApplication` (lines 427-483).  On the pg driver a date
column arrives as a `Date` object and is rendered back to its ISO day
string (lines 470-471); with dates modelled as ISO strings that conversion
is the identity. -/
def getApplication (connected : Bool) (applicationID : Int) :
    M (Option ApplicationDTO) :=
  tryCatchJs
    (if !connected then pure none
     else do
      runBegin connected
      let applicationRes ← runSelect connected
        (fun db => getApplicationRows db applicationID)
      let retApplication ← match applicationRes with
        | [] =>
          mkApplicationDTO applicationID "DUMMY" "DUMMY" ⟨999999, "DUMMY"⟩ 0
            "1212-12-12" "1212-12-12" decisionsEnum.Unhandled
            applicationErrorCodes.InvalidID
        | r :: _ =>
          mkApplicationDTO r.applicationId r.firstName r.lastName
            ⟨r.competenceId, r.ctype⟩ r.yearsOfExperience r.fromDate r.toDate
            r.decision applicationErrorCodes.OK
      runCommit connected
      pure (some retApplication))
    (pure none)

/-- Effect of `submitDecisionQuery` (lines 519-524): set `decision` and
`recruiter_id` on the status rows of the application id. -/
def setDecision (statuses : List StatusRow) (applicationID : Int)
    (decision : String) (recruiterId : Option Int) : List StatusRow :=
  statuses.map (fun r =>
    if r.applicationId == applicationID then
      { r with decision := decision, recruiterId := recruiterId }
    else r)

/-- Embeds `submitApplicationDecision` (lines 494-538). -/
def submitApplicationDecision (connected : Bool) (username : String)
    (applicationID : Int) (decision : String) : M (Option DecisionDTO) :=
  tryCatchJs
    (if !connected then pure none
     else do
      runBegin connected
      let personID ← _getPersonID connected username
      let applicationChecker ← _checkApplication connected applicationID
      let retDecision ←
        if personID == some (-1) then
          mkDecisionDTO decisionsEnum.Unhandled decisionErrorCodes.InvalidUsername
        else match applicationChecker with
          | none =>
            -- the JS property read `applicationChecker.applicationStatusID`
            -- on `null` raises a TypeError (dead when the connection is up)
            throwJs
          | some chk =>
            if chk.applicationStatusID == -1 then
              mkDecisionDTO decisionsEnum.Unhandled
                decisionErrorCodes.InvalidApplication
            else if chk.decision != decisionsEnum.Unhandled then
              mkDecisionDTO chk.decision decisionErrorCodes.ExistentDecision
            else if decision != decisionsEnum.Unhandled &&
                decision != decisionsEnum.Accepted &&
                decision != decisionsEnum.Rejected then
              mkDecisionDTO decisionsEnum.Unhandled
                decisionErrorCodes.InvalidDecision
            else do
              let _ ← runQuery connected (fun db =>
                ((), { db with
                  statuses := setDecision db.statuses applicationID decision
                    personID }))
              mkDecisionDTO decision decisionErrorCodes.OK
      runCommit connected
      pure (some retDecision))
    (pure none)

/-- The failure-free schedule: no query fails. -/
def noFail : Nat → Bool := fun _ => false

/-! Concrete stores used to instantiate the theorems: bob is a recruiter
(person 7), alice an applicant (person 1), competence 3 exists. -/

/-- Sample store with no applications. -/
def sampleDB : DB where
  loginInfo := [⟨"bob", "bob@mail.se", "hashB", 7⟩, ⟨"alice", "ali@mail.se", "hashA", 1⟩]
  persons := [⟨7, "Bob", "Berg", "19800101-0000", 1⟩, ⟨1, "Alice", "Aal", "19900101-0000", 2⟩]
  competences := [⟨3, 1, "Cooking"⟩]
  applications := []
  statuses := []
  availabilities := []
  nextPersonId := 10
  nextApplicationId := 1
  nextStatusId := 1

/-- Sample store holding an accepted application 1 of alice. -/
def sampleDBAccepted : DB :=
  { sampleDB with
    applications := [⟨1, 2, 3, 1⟩],
    statuses := [⟨5, 1, "Accepted", some 7⟩],
    nextApplicationId := 2, nextStatusId := 6 }

/-- Sample store holding an undecided application 1 of alice. -/
def sampleDBUnhandled : DB :=
  { sampleDB with
    applications := [⟨1, 2, 3, 1⟩],
    statuses := [⟨5, 1, "Unhandled", none⟩],
    nextApplicationId := 2, nextStatusId := 6 }

/-- Sample store with two applications of alice and one availability row. -/
def sampleDBList : DB :=
  { sampleDB with
    applications := [⟨1, 2, 3, 1⟩, ⟨2, 1, 3, 1⟩],
    statuses := [⟨5, 1, "Unhandled", none⟩, ⟨6, 2, "Unhandled", none⟩],
    availabilities := [⟨1, "2024-01-01", "2024-03-01"⟩],
    nextApplicationId := 3, nextStatusId := 7 }

/-- Store like `sampleDBList` but with a stored first name containing a
digit, which violates `Validators.isApplication`. -/
def sampleDBBadName : DB :=
  { sampleDBList with
    persons := [⟨7, "Bob", "Berg", "19800101-0000", 1⟩, ⟨1, "Ann4", "Aal", "19900101-0000", 2⟩] }

/-- Filter matching everything, unpaged. -/
def filterAll : ApplicationFilterDTO := ⟨"NONE", 0, "0001-01-01", "0001-01-01", 0⟩

/-- Filter matching everything, page 2. -/
def filterPage2 : ApplicationFilterDTO := ⟨"NONE", 0, "0001-01-01", "0001-01-01", 2⟩

/-- The page window of the spec: for a page beyond the "all" sentinel, the
25-row window starting at (page - 1) * 25, clamped to the available rows;
for the sentinel, all rows. -/
def pagedRows (page : Int) (rows : List ApplicationsListRow) :
    List ApplicationsListRow :=
  if page > filterEmptyParamEnum.Page then
    (rows.drop ((page - 1) * 25).toNat).take 25
  else rows

/-! Theorems.  The stepping lemmas below unfold one monadic step of the
execution model; the claim theorems follow. -/

/-- Unfolding lemma: the do-notation bind of `M` is `M.bind`. -/
theorem monadM_bind (x : M α) (f : α → M β) : x >>= f = M.bind x f := rfl

/-- Unfolding lemma: the do-notation pure of `M` is `M.pure`. -/
theorem monadM_pure (a : α) : (pure a : M α) = M.pure a := rfl

/-- Stepping lemma for `M.pure` on a state. -/
theorem M.pure_apply (a : α) (s : JsState) :
    (M.pure a : M α) s = (Except.ok a, s) := rfl

/-- Stepping lemma for `M.bind` on a state. -/
theorem M.bind_apply (x : M α) (f : α → M β) (s : JsState) :
    M.bind x f s =
      match x s with
      | (Except.ok a, s1) => f a s1
      | (Except.error e, s1) => (Except.error e, s1) := rfl

/-- Stepping lemma for `throwJs` on a state. -/
theorem throwJs_apply (s : JsState) :
    (throwJs : M α) s = (Except.error (), s) := rfl

/-- Stepping lemma for `tryCatchJs` on a state. -/
theorem tryCatchJs_apply (body handler : M α) (s : JsState) :
    tryCatchJs body handler s =
      match body s with
      | (Except.ok a, s1) => (Except.ok a, s1)
      | (Except.error _, s1) => handler s1 := rfl

/-- Stepping lemma for `runSql` on a state. -/
theorem runSql_apply (connected : Bool) (step : PgState → α × PgState)
    (s : JsState) :
    runSql connected step s =
      if s.sched s.idx then
        (Except.error (),
          { pg := if connected then s.pg.pgRollback else s.pg,
            sched := s.sched, idx := s.idx + 1 })
      else
        (Except.ok (step s.pg).1,
          { pg := (step s.pg).2, sched := s.sched, idx := s.idx + 1 }) := by
  unfold runSql
  split
  · rfl
  · rfl


set_option maxHeartbeats 1600000 in
/-- C3 (amended): across all connection states and failure schedules, a
`submitApplicationDecision` call either leaves the stored statuses unchanged
or, when the stored decision of the application is `Unhandled`, writes the
requested decision, which is one of the three literals `Unhandled`,
`Accepted`, `Rejected`, together with the recruiter id; in particular no
write ever happens once the stored decision differs from `Unhandled`. -/
theorem submit_decision_transitions (connected : Bool)
    (username : String) (applicationID : Int) (decision : String) (db : DB)
    (fail : Nat → Bool) :
    (submitApplicationDecision connected username applicationID decision
        ⟨⟨db, none⟩, fail, 0⟩).2.pg.committed.statuses = db.statuses ∨
    (isDecisionB decision = true ∧
     ∃ r rest, statusQuery db applicationID = r :: rest ∧
       r.decision = decisionsEnum.Unhandled ∧
       ∃ pid,
         (submitApplicationDecision connected username applicationID decision
             ⟨⟨db, none⟩, fail, 0⟩).2.pg.committed.statuses =
           setDecision db.statuses applicationID decision (some pid)) := by
  cases connected with
  | false =>
    left
    simp [submitApplicationDecision, tryCatchJs_apply, monadM_bind, monadM_pure, M.pure_apply, M.bind_apply, throwJs_apply, runSql_apply, instMonadM, _getPersonID, _checkApplication, runBegin, runCommit, runSelect, runQuery, mkDecisionDTO, isDecisionB, decisionsEnum.Unhandled, decisionsEnum.Accepted, decisionsEnum.Rejected, PgState.pgBegin, PgState.pgCommit, PgState.pgRollback, PgState.applyStmt, PgState.view]
  | true =>
    by_cases h1 : fail 0 = true
    · left
      simp [submitApplicationDecision, tryCatchJs_apply, monadM_bind, monadM_pure, M.pure_apply, M.bind_apply, throwJs_apply, runSql_apply, instMonadM, _getPersonID, _checkApplication, runBegin, runCommit, runSelect, runQuery, mkDecisionDTO, isDecisionB, decisionsEnum.Unhandled, decisionsEnum.Accepted, decisionsEnum.Rejected, PgState.pgBegin, PgState.pgCommit, PgState.pgRollback, PgState.applyStmt, PgState.view, h1]
    · 
      by_cases h2 : fail 1 = true
      · left
        simp [submitApplicationDecision, tryCatchJs_apply, monadM_bind, monadM_pure, M.pure_apply, M.bind_apply, throwJs_apply, runSql_apply, instMonadM, _getPersonID, _checkApplication, runBegin, runCommit, runSelect, runQuery, mkDecisionDTO, isDecisionB, decisionsEnum.Unhandled, decisionsEnum.Accepted, decisionsEnum.Rejected, PgState.pgBegin, PgState.pgCommit, PgState.pgRollback, PgState.applyStmt, PgState.view, h1, h2]
      · 
        by_cases h3 : fail 2 = true
        · left
          simp [submitApplicationDecision, tryCatchJs_apply, monadM_bind, monadM_pure, M.pure_apply, M.bind_apply, throwJs_apply, runSql_apply, instMonadM, _getPersonID, _checkApplication, runBegin, runCommit, runSelect, runQuery, mkDecisionDTO, isDecisionB, decisionsEnum.Unhandled, decisionsEnum.Accepted, decisionsEnum.Rejected, PgState.pgBegin, PgState.pgCommit, PgState.pgRollback, PgState.applyStmt, PgState.view, h1, h2, h3]
        · 
          by_cases h4 : fail 3 = true
          · left
            simp [submitApplicationDecision, tryCatchJs_apply, monadM_bind, monadM_pure, M.pure_apply, M.bind_apply, throwJs_apply, runSql_apply, instMonadM, _getPersonID, _checkApplication, runBegin, runCommit, runSelect, runQuery, mkDecisionDTO, isDecisionB, decisionsEnum.Unhandled, decisionsEnum.Accepted, decisionsEnum.Rejected, PgState.pgBegin, PgState.pgCommit, PgState.pgRollback, PgState.applyStmt, PgState.view, h1, h2, h3, h4]
          · 
            by_cases h5 : fail 4 = true
            · left
              simp [submitApplicationDecision, tryCatchJs_apply, monadM_bind, monadM_pure, M.pure_apply, M.bind_apply, throwJs_apply, runSql_apply, instMonadM, _getPersonID, _checkApplication, runBegin, runCommit, runSelect, runQuery, mkDecisionDTO, isDecisionB, decisionsEnum.Unhandled, decisionsEnum.Accepted, decisionsEnum.Rejected, PgState.pgBegin, PgState.pgCommit, PgState.pgRollback, PgState.applyStmt, PgState.view, h1, h2, h3, h4, h5]
            · 
              by_cases h6 : fail 5 = true
              · left
                simp [submitApplicationDecision, tryCatchJs_apply, monadM_bind, monadM_pure, M.pure_apply, M.bind_apply, throwJs_apply, runSql_apply, instMonadM, _getPersonID, _checkApplication, runBegin, runCommit, runSelect, runQuery, mkDecisionDTO, isDecisionB, decisionsEnum.Unhandled, decisionsEnum.Accepted, decisionsEnum.Rejected, PgState.pgBegin, PgState.pgCommit, PgState.pgRollback, PgState.applyStmt, PgState.view, h1, h2, h3, h4, h5, h6]
              · 
                by_cases h7 : fail 6 = true
                · left
                  simp [submitApplicationDecision, tryCatchJs_apply, monadM_bind, monadM_pure, M.pure_apply, M.bind_apply, throwJs_apply, runSql_apply, instMonadM, _getPersonID, _checkApplication, runBegin, runCommit, runSelect, runQuery, mkDecisionDTO, isDecisionB, decisionsEnum.Unhandled, decisionsEnum.Accepted, decisionsEnum.Rejected, PgState.pgBegin, PgState.pgCommit, PgState.pgRollback, PgState.applyStmt, PgState.view, h1, h2, h3, h4, h5, h6, h7]
                · 
                  by_cases hpid : personIdResult (personIdQuery db username) = -1
                  · left
                    by_cases h8 : fail 7 = true <;>
                      simp [submitApplicationDecision, tryCatchJs_apply, monadM_bind, monadM_pure, M.pure_apply, M.bind_apply, throwJs_apply, runSql_apply, instMonadM, _getPersonID, _checkApplication, runBegin, runCommit, runSelect, runQuery, mkDecisionDTO, isDecisionB, decisionsEnum.Unhandled, decisionsEnum.Accepted, decisionsEnum.Rejected, PgState.pgBegin, PgState.pgCommit, PgState.pgRollback, PgState.applyStmt, PgState.view, h1, h2, h3, h4, h5, h6, h7, hpid, h8]
                  · rcases hrows : statusQuery db applicationID with _ | ⟨r, rest⟩
                    · left
                      by_cases h8 : fail 7 = true <;>
                        simp [submitApplicationDecision, tryCatchJs_apply, monadM_bind, monadM_pure, M.pure_apply, M.bind_apply, throwJs_apply, runSql_apply, instMonadM, _getPersonID, _checkApplication, runBegin, runCommit, runSelect, runQuery, mkDecisionDTO, isDecisionB, decisionsEnum.Unhandled, decisionsEnum.Accepted, decisionsEnum.Rejected, PgState.pgBegin, PgState.pgCommit, PgState.pgRollback, PgState.applyStmt, PgState.view, h1, h2, h3, h4, h5, h6, h7, hpid, hrows, h8]
                    · by_cases hid : r.id = -1
                      · left
                        by_cases h8 : fail 7 = true <;>
                          simp [submitApplicationDecision, tryCatchJs_apply, monadM_bind, monadM_pure, M.pure_apply, M.bind_apply, throwJs_apply, runSql_apply, instMonadM, _getPersonID, _checkApplication, runBegin, runCommit, runSelect, runQuery, mkDecisionDTO, isDecisionB, decisionsEnum.Unhandled, decisionsEnum.Accepted, decisionsEnum.Rejected, PgState.pgBegin, PgState.pgCommit, PgState.pgRollback, PgState.applyStmt, PgState.view, h1, h2, h3, h4, h5, h6, h7, hpid, hrows, hid, h8]
                      · by_cases hdec : r.decision = "Unhandled"
                        · by_cases hU : decision = "Unhandled"
                          · by_cases h8 : fail 7 = true
                            · left
                              simp [submitApplicationDecision, tryCatchJs_apply, monadM_bind, monadM_pure, M.pure_apply, M.bind_apply, throwJs_apply, runSql_apply, instMonadM, _getPersonID, _checkApplication, runBegin, runCommit, runSelect, runQuery, mkDecisionDTO, isDecisionB, decisionsEnum.Unhandled, decisionsEnum.Accepted, decisionsEnum.Rejected, PgState.pgBegin, PgState.pgCommit, PgState.pgRollback, PgState.applyStmt, PgState.view, h1, h2, h3, h4, h5, h6, h7, hpid, hrows, hid, hdec, hU, h8]
                            · refine Or.inr ⟨by simp [isDecisionB, hU, decisionsEnum.Unhandled, decisionsEnum.Accepted, decisionsEnum.Rejected], r, rest, by simp [hrows],
                                by simp [decisionsEnum.Unhandled, hdec],
                                personIdResult (personIdQuery db username), ?_⟩
                              by_cases h9 : fail 8 = true <;>
                                simp [submitApplicationDecision, tryCatchJs_apply, monadM_bind, monadM_pure, M.pure_apply, M.bind_apply, throwJs_apply, runSql_apply, instMonadM, _getPersonID, _checkApplication, runBegin, runCommit, runSelect, runQuery, mkDecisionDTO, isDecisionB, decisionsEnum.Unhandled, decisionsEnum.Accepted, decisionsEnum.Rejected, PgState.pgBegin, PgState.pgCommit, PgState.pgRollback, PgState.applyStmt, PgState.view, h1, h2, h3, h4, h5, h6, h7, hpid, hrows, hid, hdec, hU, h8, h9, setDecision]
                          · by_cases hA : decision = "Accepted"
                            · by_cases h8 : fail 7 = true
                              · left
                                simp [submitApplicationDecision, tryCatchJs_apply, monadM_bind, monadM_pure, M.pure_apply, M.bind_apply, throwJs_apply, runSql_apply, instMonadM, _getPersonID, _checkApplication, runBegin, runCommit, runSelect, runQuery, mkDecisionDTO, isDecisionB, decisionsEnum.Unhandled, decisionsEnum.Accepted, decisionsEnum.Rejected, PgState.pgBegin, PgState.pgCommit, PgState.pgRollback, PgState.applyStmt, PgState.view, h1, h2, h3, h4, h5, h6, h7, hpid, hrows, hid, hdec, hU, hA, h8]
                              · refine Or.inr ⟨by simp [isDecisionB, hA, decisionsEnum.Unhandled, decisionsEnum.Accepted, decisionsEnum.Rejected], r, rest, by simp [hrows],
                                  by simp [decisionsEnum.Unhandled, hdec],
                                  personIdResult (personIdQuery db username), ?_⟩
                                by_cases h9 : fail 8 = true <;>
                                  simp [submitApplicationDecision, tryCatchJs_apply, monadM_bind, monadM_pure, M.pure_apply, M.bind_apply, throwJs_apply, runSql_apply, instMonadM, _getPersonID, _checkApplication, runBegin, runCommit, runSelect, runQuery, mkDecisionDTO, isDecisionB, decisionsEnum.Unhandled, decisionsEnum.Accepted, decisionsEnum.Rejected, PgState.pgBegin, PgState.pgCommit, PgState.pgRollback, PgState.applyStmt, PgState.view, h1, h2, h3, h4, h5, h6, h7, hpid, hrows, hid, hdec, hU, hA, h8, h9, setDecision]
                            · by_cases hR : decision = "Rejected"
                              · by_cases h8 : fail 7 = true
                                · left
                                  simp [submitApplicationDecision, tryCatchJs_apply, monadM_bind, monadM_pure, M.pure_apply, M.bind_apply, throwJs_apply, runSql_apply, instMonadM, _getPersonID, _checkApplication, runBegin, runCommit, runSelect, runQuery, mkDecisionDTO, isDecisionB, decisionsEnum.Unhandled, decisionsEnum.Accepted, decisionsEnum.Rejected, PgState.pgBegin, PgState.pgCommit, PgState.pgRollback, PgState.applyStmt, PgState.view, h1, h2, h3, h4, h5, h6, h7, hpid, hrows, hid, hdec, hU, hA, hR, h8]
                                · refine Or.inr ⟨by simp [isDecisionB, hR, decisionsEnum.Unhandled, decisionsEnum.Accepted, decisionsEnum.Rejected], r, rest, by simp [hrows],
                                    by simp [decisionsEnum.Unhandled, hdec],
                                    personIdResult (personIdQuery db username), ?_⟩
                                  by_cases h9 : fail 8 = true <;>
                                    simp [submitApplicationDecision, tryCatchJs_apply, monadM_bind, monadM_pure, M.pure_apply, M.bind_apply, throwJs_apply, runSql_apply, instMonadM, _getPersonID, _checkApplication, runBegin, runCommit, runSelect, runQuery, mkDecisionDTO, isDecisionB, decisionsEnum.Unhandled, decisionsEnum.Accepted, decisionsEnum.Rejected, PgState.pgBegin, PgState.pgCommit, PgState.pgRollback, PgState.applyStmt, PgState.view, h1, h2, h3, h4, h5, h6, h7, hpid, hrows, hid, hdec, hU, hA, hR, h8, h9, setDecision]
                              · left
                                by_cases h8 : fail 7 = true <;>
                                  simp [submitApplicationDecision, tryCatchJs_apply, monadM_bind, monadM_pure, M.pure_apply, M.bind_apply, throwJs_apply, runSql_apply, instMonadM, _getPersonID, _checkApplication, runBegin, runCommit, runSelect, runQuery, mkDecisionDTO, isDecisionB, decisionsEnum.Unhandled, decisionsEnum.Accepted, decisionsEnum.Rejected, PgState.pgBegin, PgState.pgCommit, PgState.pgRollback, PgState.applyStmt, PgState.view, h1, h2, h3, h4, h5, h6, h7, hpid, hrows, hid, hdec, hU, hA, hR, h8]
                        · by_cases hA2 : r.decision = "Accepted"
                          · left
                            by_cases h8 : fail 7 = true <;>
                              simp [submitApplicationDecision, tryCatchJs_apply, monadM_bind, monadM_pure, M.pure_apply, M.bind_apply, throwJs_apply, runSql_apply, instMonadM, _getPersonID, _checkApplication, runBegin, runCommit, runSelect, runQuery, mkDecisionDTO, isDecisionB, decisionsEnum.Unhandled, decisionsEnum.Accepted, decisionsEnum.Rejected, PgState.pgBegin, PgState.pgCommit, PgState.pgRollback, PgState.applyStmt, PgState.view, h1, h2, h3, h4, h5, h6, h7, hpid, hrows, hid, hdec, hA2, h8]
                          · by_cases hR2 : r.decision = "Rejected"
                            · left
                              by_cases h8 : fail 7 = true <;>
                                simp [submitApplicationDecision, tryCatchJs_apply, monadM_bind, monadM_pure, M.pure_apply, M.bind_apply, throwJs_apply, runSql_apply, instMonadM, _getPersonID, _checkApplication, runBegin, runCommit, runSelect, runQuery, mkDecisionDTO, isDecisionB, decisionsEnum.Unhandled, decisionsEnum.Accepted, decisionsEnum.Rejected, PgState.pgBegin, PgState.pgCommit, PgState.pgRollback, PgState.applyStmt, PgState.view, h1, h2, h3, h4, h5, h6, h7, hpid, hrows, hid, hdec, hA2, hR2, h8]
                            · left
                              by_cases h8 : fail 7 = true <;>
                                simp [submitApplicationDecision, tryCatchJs_apply, monadM_bind, monadM_pure, M.pure_apply, M.bind_apply, throwJs_apply, runSql_apply, instMonadM, _getPersonID, _checkApplication, runBegin, runCommit, runSelect, runQuery, mkDecisionDTO, isDecisionB, decisionsEnum.Unhandled, decisionsEnum.Accepted, decisionsEnum.Rejected, PgState.pgBegin, PgState.pgCommit, PgState.pgRollback, PgState.applyStmt, PgState.view, h1, h2, h3, h4, h5, h6, h7, hpid, hrows, hid, hdec, hA2, hR2, h8]

/-- C3 counterexample: with application 1 stored as `Unhandled`, submitting
the decision `Unhandled` succeeds with code OK and rewrites the status row
(an `Unhandled` to `Unhandled` write that also sets the recruiter id),
refuting the claim that `Unhandled → Accepted` and `Unhandled → Rejected`
are the only writes ever performed. -/
theorem decision_unhandled_rewrite_counterexample :
    sampleDBUnhandled.statuses = [⟨5, 1, "Unhandled", none⟩] ∧
    (submitApplicationDecision true "bob" 1 "Unhandled"
        ⟨⟨sampleDBUnhandled, none⟩, noFail, 0⟩).1 =
      Except.ok (some ⟨"Unhandled", decisionErrorCodes.OK⟩) ∧
    (submitApplicationDecision true "bob" 1 "Unhandled"
        ⟨⟨sampleDBUnhandled, none⟩, noFail, 0⟩).2.pg.committed.statuses =
      [⟨5, 1, "Unhandled", some 7⟩] := by
  refine ⟨rfl, rfl, rfl⟩

/-- C1: the claim states that when the username resolves to an existing
person whose role is not Applicant, `registerApplication` returns an
`InvalidRole` result with applicationID 0.  The code instead invokes the
undefined method `this.getRoleID` (the class defines `_getRoleID` only), so
for every existing person, whatever the role, the call raises a TypeError
and surfaces the null infrastructure-failure sentinel, with the store left
unchanged. -/
theorem registerApplication_role_lookup_null (info : ApplicationInfoDTO) (db : DB)
    (h : personIdResult (personIdQuery db info.username) ≠ -1) :
    (registerNewApplication true info ⟨⟨db, none⟩, noFail, 0⟩).1 = Except.ok none ∧
    (registerNewApplication true info ⟨⟨db, none⟩, noFail, 0⟩).2.pg = ⟨db, none⟩ := by
  constructor <;>
    simp [tryCatchJs_apply, monadM_bind, monadM_pure, M.pure_apply, M.bind_apply, throwJs_apply, runSql_apply, instMonadM, runBegin, runCommit, runSelect, runQuery, PgState.pgBegin, PgState.pgCommit, PgState.pgRollback, PgState.applyStmt, PgState.view, noFail, registerNewApplication, _getPersonID, jsCallUndefinedGetRoleID,
      mkRegistrationDTO, h]

/-- Witness for C1 at a concrete store: bob is an existing recruiter. -/
theorem registerApplication_role_lookup_null_witness :
    personIdResult (personIdQuery sampleDB "bob") ≠ -1 ∧
    ((registerNewApplication true ⟨"bob", 3, 2, "2024-01-01", "2024-03-01"⟩
        ⟨⟨sampleDB, none⟩, noFail, 0⟩).1 = Except.ok none ∧
     (registerNewApplication true ⟨"bob", 3, 2, "2024-01-01", "2024-03-01"⟩
        ⟨⟨sampleDB, none⟩, noFail, 0⟩).2.pg = ⟨sampleDB, none⟩) :=
  ⟨by decide,
   registerApplication_role_lookup_null ⟨"bob", 3, 2, "2024-01-01", "2024-03-01"⟩
     sampleDB (by decide)⟩

/-- C5: the claim states that an applicant with a valid competence receives
`ExistentApplication` with the previous id on window overlap and `OK` with a
fresh id otherwise.  In the code the competence, duplicate and insert logic
is unreachable: alice is an applicant, competence 3 exists and there is no
prior application, yet the call surfaces the null sentinel (the undefined
`this.getRoleID` call throws first) and inserts nothing. -/
theorem registerApplication_applicant_null :
    sampleDB.competences = [⟨3, 1, "Cooking"⟩] ∧
    sampleDB.applications = [] ∧
    (registerNewApplication true ⟨"alice", 3, 2, "2024-01-01", "2024-03-01"⟩
        ⟨⟨sampleDB, none⟩, noFail, 0⟩).1 = Except.ok none ∧
    (registerNewApplication true ⟨"alice", 3, 2, "2024-01-01", "2024-03-01"⟩
        ⟨⟨sampleDB, none⟩, noFail, 0⟩).2.pg = ⟨sampleDB, none⟩ :=
  ⟨rfl, rfl, rfl, rfl⟩

/-- C2: once the stored decision of an application is Accepted or Rejected,
any `submitApplicationDecision` call with a valid username returns
`ExistentDecision` carrying the stored decision, and the committed store is
unchanged (no update runs). -/
theorem submit_existent_decision_no_update (db : DB) (username : String)
    (applicationID : Int) (decision : String) (r : StatusRow)
    (rest : List StatusRow)
    (hpid : personIdResult (personIdQuery db username) ≠ -1)
    (hrows : statusQuery db applicationID = r :: rest)
    (hid : r.id ≠ -1)
    (hdec : r.decision = decisionsEnum.Accepted ∨ r.decision = decisionsEnum.Rejected) :
    (submitApplicationDecision true username applicationID decision
        ⟨⟨db, none⟩, noFail, 0⟩).1 =
      Except.ok (some ⟨r.decision, decisionErrorCodes.ExistentDecision⟩) ∧
    (submitApplicationDecision true username applicationID decision
        ⟨⟨db, none⟩, noFail, 0⟩).2.pg = ⟨db, none⟩ := by
  rcases hdec with h | h <;> constructor <;>
    simp [tryCatchJs_apply, monadM_bind, monadM_pure, M.pure_apply, M.bind_apply, throwJs_apply, runSql_apply, instMonadM, runBegin, runCommit, runSelect, runQuery, PgState.pgBegin, PgState.pgCommit, PgState.pgRollback, PgState.applyStmt, PgState.view, noFail, submitApplicationDecision, _getPersonID, _checkApplication,
      mkDecisionDTO, isDecisionB, decisionsEnum.Unhandled, decisionsEnum.Accepted,
      decisionsEnum.Rejected, hpid, hrows, hid, h]

/-- Witness for C2 at a concrete store: application 1 is Accepted and bob
submits Rejected. -/
theorem submit_existent_decision_no_update_witness :
    (submitApplicationDecision true "bob" 1 "Rejected"
        ⟨⟨sampleDBAccepted, none⟩, noFail, 0⟩).1 =
      Except.ok (some ⟨"Accepted", decisionErrorCodes.ExistentDecision⟩) ∧
    (submitApplicationDecision true "bob" 1 "Rejected"
        ⟨⟨sampleDBAccepted, none⟩, noFail, 0⟩).2.pg = ⟨sampleDBAccepted, none⟩ :=
  submit_existent_decision_no_update sampleDBAccepted "bob" 1 "Rejected"
    ⟨5, 1, "Accepted", some 7⟩ [] (by decide) (by decide) (by decide) (Or.inl rfl)

/-- C4 (amended): for a positive application id that matches no stored
application, `getApplication` returns the placeholder detail result tagged
`InvalidID` and leaves the store unchanged; it neither returns null nor
throws on this path.  (For non-positive ids the placeholder construction
fails its own validator and null is returned, see the counterexample.) -/
theorem getApplication_not_found_placeholder (db : DB) (applicationID : Int)
    (hpos : 1 ≤ applicationID)
    (hempty : getApplicationRows db applicationID = []) :
    (getApplication true applicationID ⟨⟨db, none⟩, noFail, 0⟩).1 =
      Except.ok (some ⟨applicationID, "DUMMY", "DUMMY", ⟨999999, "DUMMY"⟩, 0,
        "1212-12-12", "1212-12-12", "Unhandled",
        applicationErrorCodes.InvalidID⟩) ∧
    (getApplication true applicationID ⟨⟨db, none⟩, noFail, 0⟩).2.pg =
      ⟨db, none⟩ := by
  have hposB : isPositiveWholeNumberB applicationID = true := by
    unfold isPositiveWholeNumberB
    exact decide_eq_true hpos
  constructor <;>
    simp [tryCatchJs_apply, monadM_bind, monadM_pure, M.pure_apply, M.bind_apply, throwJs_apply, runSql_apply, instMonadM, runBegin, runCommit, runSelect, runQuery, PgState.pgBegin, PgState.pgCommit, PgState.pgRollback, PgState.applyStmt, PgState.view, noFail, getApplication, mkApplicationDTO, hempty, hposB,
      decisionsEnum.Unhandled,
      (by decide : isAlphaSvAposB "DUMMY" = true),
      (by decide : isCompetenceB ⟨999999, "DUMMY"⟩ = true),
      (by decide : isDateFormatB "1212-12-12" = true),
      (by decide : isDecisionB "Unhandled" = true),
      (by decide : isNonNegativeNumberB 0 = true)]

/-- Witness for C4 at a concrete store with no application 42. -/
theorem getApplication_not_found_placeholder_witness :
    (getApplication true 42 ⟨⟨sampleDB, none⟩, noFail, 0⟩).1 =
      Except.ok (some ⟨42, "DUMMY", "DUMMY", ⟨999999, "DUMMY"⟩, 0,
        "1212-12-12", "1212-12-12", "Unhandled",
        applicationErrorCodes.InvalidID⟩) ∧
    (getApplication true 42 ⟨⟨sampleDB, none⟩, noFail, 0⟩).2.pg =
      ⟨sampleDB, none⟩ :=
  getApplication_not_found_placeholder sampleDB 42 (by decide) (by decide)

/-- C4 counterexample: the id 0 matches no stored application, yet the call
returns the null sentinel instead of an `InvalidID` placeholder, because
`ApplicationDTO` asserts a positive application id and the thrown assertion
error is caught as an infrastructure failure. -/
theorem getApplication_zero_id_null :
    getApplicationRows sampleDB 0 = [] ∧
    (getApplication true 0 ⟨⟨sampleDB, none⟩, noFail, 0⟩).1 = Except.ok none :=
  ⟨rfl, rfl⟩

/-- C6: the claim states that whenever an operation surfaces the null
sentinel after an unexpected error, the enclosing transaction was rolled
back, so no earlier write of the same call persists.  Refutation: the
helper queries of `submitApplicationDecision` issue their own BEGIN/COMMIT
inside the outer transaction, and the nested COMMIT ends the enclosing
transaction, so the decision UPDATE autocommits; when the final COMMIT
(query number 8, counted from 0) then fails, ROLLBACK is a no-op and null
is surfaced while the Accepted write persists in the committed store. -/
theorem submit_commit_failure_persists_write :
    sampleDBUnhandled.statuses = [⟨5, 1, "Unhandled", none⟩] ∧
    (submitApplicationDecision true "bob" 1 "Accepted"
        ⟨⟨sampleDBUnhandled, none⟩, (fun n => n == 8), 0⟩).1 = Except.ok none ∧
    (submitApplicationDecision true "bob" 1 "Accepted"
        ⟨⟨sampleDBUnhandled, none⟩, (fun n => n == 8), 0⟩).2.pg.committed.statuses =
      [⟨5, 1, "Accepted", some 7⟩] :=
  ⟨rfl, rfl, rfl⟩

/-- The page-window loop of `getApplicationsList` computes the
drop-and-take window. -/
theorem pageLoop_eq_drop_take (rows : List ApplicationsListRow) (offset : Nat) :
    ∀ fuel i, pageLoop rows offset fuel i = (rows.drop (offset + i)).take fuel := by
  intro fuel
  induction fuel with
  | zero => intro i; simp [pageLoop]
  | succ n ih =>
    intro i
    by_cases h : offset + i < rows.length
    · rw [pageLoop, dif_pos h, ih (i + 1), List.drop_eq_getElem_cons h,
        List.take_succ_cons, List.get_eq_getElem, Nat.add_assoc]
    · have hle : rows.length ≤ offset + i := Nat.le_of_not_lt h
      simp [pageLoop, h, List.drop_eq_nil_of_le hle]

/-- C7: when every row of the requested window passes the row validator,
`listApplications` returns exactly the 25-row window
[(page - 1) * 25, page * 25) of the filtered result for a page beyond the
sentinel and all rows for the sentinel page 0, the filtered result is
sorted ascending by application id, the store is unchanged, and a page past
the end yields the empty list rather than an error. -/
theorem listApplications_pagination (db : DB) (f : ApplicationFilterDTO)
    (hvalid : (pagedRows f.page (getApplicationsRows db f)).all isApplicationB = true) :
    (getApplicationsList true f ⟨⟨db, none⟩, noFail, 0⟩).1 =
      Except.ok (some ⟨pagedRows f.page (getApplicationsRows db f)⟩) ∧
    (getApplicationsList true f ⟨⟨db, none⟩, noFail, 0⟩).2.pg = ⟨db, none⟩ ∧
    List.Sorted rowIdLe (getApplicationsRows db f) ∧
    (∀ page : Int, page > filterEmptyParamEnum.Page →
      (getApplicationsRows db f).length ≤ ((page - 1) * 25).toNat →
      pagedRows page (getApplicationsRows db f) = []) := by
  refine ⟨?_, ?_, List.sorted_insertionSort rowIdLe _, ?_⟩
  · by_cases hp : f.page > filterEmptyParamEnum.Page <;>
    · simp only [pagedRows, hp, if_true, if_false] at hvalid ⊢
      simp only [tryCatchJs_apply, monadM_bind, monadM_pure, M.pure_apply,
        M.bind_apply, throwJs_apply, runSql_apply, instMonadM, runBegin,
        runCommit, runSelect, runQuery, PgState.pgBegin, PgState.pgCommit,
        PgState.pgRollback, PgState.applyStmt, PgState.view, noFail,
        getApplicationsList, _getApplications, _getOffset,
        mkApplicationsListDTO, pageLoop_eq_drop_take, hp, hvalid,
        Bool.not_true, Bool.false_eq_true, if_false, if_true, Nat.add_zero,
        decide_True, decide_False, Bool.true_eq_false, ite_true, ite_false,
        Option.getD_some, hvalid]
  · by_cases hp : f.page > filterEmptyParamEnum.Page <;>
    · simp only [pagedRows, hp, if_true, if_false] at hvalid ⊢
      simp only [tryCatchJs_apply, monadM_bind, monadM_pure, M.pure_apply,
        M.bind_apply, throwJs_apply, runSql_apply, instMonadM, runBegin,
        runCommit, runSelect, runQuery, PgState.pgBegin, PgState.pgCommit,
        PgState.pgRollback, PgState.applyStmt, PgState.view, noFail,
        getApplicationsList, _getApplications, _getOffset,
        mkApplicationsListDTO, pageLoop_eq_drop_take, hp, hvalid,
        Bool.not_true, Bool.false_eq_true, if_false, if_true, Nat.add_zero,
        decide_True, decide_False, Bool.true_eq_false, ite_true, ite_false,
        Option.getD_some, hvalid]
  · intro page hp hlen
    simp [pagedRows, hp, List.drop_eq_nil_of_le hlen]

/-- Witness for C7 at a concrete store: page 2 of a two-row result is the
empty window. -/
theorem listApplications_pagination_witness :
    (getApplicationsList true filterPage2 ⟨⟨sampleDBList, none⟩, noFail, 0⟩).1 =
      Except.ok (some ⟨pagedRows filterPage2.page
        (getApplicationsRows sampleDBList filterPage2)⟩) ∧
    (getApplicationsList true filterPage2 ⟨⟨sampleDBList, none⟩, noFail, 0⟩).2.pg =
      ⟨sampleDBList, none⟩ ∧
    List.Sorted rowIdLe (getApplicationsRows sampleDBList filterPage2) ∧
    (∀ page : Int, page > filterEmptyParamEnum.Page →
      (getApplicationsRows sampleDBList filterPage2).length ≤ ((page - 1) * 25).toNat →
      pagedRows page (getApplicationsRows sampleDBList filterPage2) = []) :=
  listApplications_pagination sampleDBList filterPage2 (by decide)

/-- C8: when both the requested email and the requested username already
exist in the credential store, `signupUser` returns `ExistentEmail` (the
email check takes precedence) and inserts no person or credential row. -/
theorem signup_existing_email_precedence (pbkdf : String → String → String)
    (globalSalt : String) (s : SignupDTO) (db : DB)
    (hu : isAlphanumericB s.username = true)
    (he : emailQuery db s.email ≠ [])
    (_hn : usernameQuery db s.username ≠ []) :
    (signupUser true pbkdf globalSalt s ⟨⟨db, none⟩, noFail, 0⟩).1 =
      Except.ok (some ⟨s.username, recruitmentRoles.Invalid,
        userErrCodes.ExistentEmail⟩) ∧
    (signupUser true pbkdf globalSalt s ⟨⟨db, none⟩, noFail, 0⟩).2.pg =
      ⟨db, none⟩ := by
  have he2 : 0 < (emailQuery db s.email).length := List.length_pos.mpr he
  constructor <;>
    simp [tryCatchJs_apply, monadM_bind, monadM_pure, M.pure_apply, M.bind_apply, throwJs_apply, runSql_apply, instMonadM, runBegin, runCommit, runSelect, runQuery, PgState.pgBegin, PgState.pgCommit, PgState.pgRollback, PgState.applyStmt, PgState.view, noFail, signupUser, mkUserDTO, isIntegerBetweenB,
      recruitmentRoles.Invalid, hu, he2]

/-- Witness for C8 at a concrete store where both the email and the
username of bob are taken. -/
theorem signup_existing_email_precedence_witness :
    (signupUser true (fun p t => p ++ t) "salt"
        ⟨"Carl", "Col", "19850101-0000", "bob@mail.se", "bob", "pw123456"⟩
        ⟨⟨sampleDB, none⟩, noFail, 0⟩).1 =
      Except.ok (some ⟨"bob", recruitmentRoles.Invalid,
        userErrCodes.ExistentEmail⟩) ∧
    (signupUser true (fun p t => p ++ t) "salt"
        ⟨"Carl", "Col", "19850101-0000", "bob@mail.se", "bob", "pw123456"⟩
        ⟨⟨sampleDB, none⟩, noFail, 0⟩).2.pg = ⟨sampleDB, none⟩ :=
  signup_existing_email_precedence (fun p t => p ++ t) "salt"
    ⟨"Carl", "Col", "19850101-0000", "bob@mail.se", "bob", "pw123456"⟩ sampleDB
    (by decide) (by decide) (by decide)

/-- C10: for an alphanumeric username with no credential row matching the
recomputed salted hash (salt = globalSalt concatenated with an underscore
and the username), `signinUser` on a live connection returns a `UserDTO`
carrying the username, the Invalid role and `LoginFailure` — not null — and
leaves the store unchanged; with the connection down it returns null. -/
theorem signin_no_match_login_failure (pbkdf : String → String → String)
    (globalSalt username password : String) (db : DB)
    (hu : isAlphanumericB username = true)
    (hnone : loginQuery db username
      (generatePasswordHash pbkdf globalSalt username password) = []) :
    (signinUser true pbkdf globalSalt username password
        ⟨⟨db, none⟩, noFail, 0⟩).1 =
      Except.ok (some ⟨username, recruitmentRoles.Invalid,
        userErrCodes.LoginFailure⟩) ∧
    (signinUser true pbkdf globalSalt username password
        ⟨⟨db, none⟩, noFail, 0⟩).2.pg = ⟨db, none⟩ ∧
    (signinUser false pbkdf globalSalt username password
        ⟨⟨db, none⟩, noFail, 0⟩).1 = Except.ok none := by
  refine ⟨?_, ?_, ?_⟩ <;>
    simp [tryCatchJs_apply, monadM_bind, monadM_pure, M.pure_apply, M.bind_apply, throwJs_apply, runSql_apply, instMonadM, runBegin, runCommit, runSelect, runQuery, PgState.pgBegin, PgState.pgCommit, PgState.pgRollback, PgState.applyStmt, PgState.view, noFail, signinUser, generatePasswordHash, mkUserDTO, isIntegerBetweenB,
      recruitmentRoles.Invalid, hu,
      show loginQuery db username
        (pbkdf password (globalSalt ++ "_" ++ username)) = [] from hnone]

/-- Witness for C10 at a concrete store without the user carl. -/
theorem signin_no_match_login_failure_witness :
    (signinUser true (fun p t => p ++ t) "salt" "carl" "pw"
        ⟨⟨sampleDB, none⟩, noFail, 0⟩).1 =
      Except.ok (some ⟨"carl", recruitmentRoles.Invalid,
        userErrCodes.LoginFailure⟩) ∧
    (signinUser true (fun p t => p ++ t) "salt" "carl" "pw"
        ⟨⟨sampleDB, none⟩, noFail, 0⟩).2.pg = ⟨sampleDB, none⟩ ∧
    (signinUser false (fun p t => p ++ t) "salt" "carl" "pw"
        ⟨⟨sampleDB, none⟩, noFail, 0⟩).1 = Except.ok none :=
  signin_no_match_login_failure (fun p t => p ++ t) "salt" "carl" "pw" sampleDB
    (by decide) (by decide)

/-- C9 (amended): every non-null result of `listApplications` contains only
elements passing `Validators.isApplication` (positive integer id, names of
letters with apostrophes allowed); a violating matched row forces the null
result only when it falls inside the returned window. -/
theorem listApplications_nonnull_rows_valid (connected : Bool) (db : DB)
    (f : ApplicationFilterDTO) (fail : Nat → Bool) (dto : ApplicationsListDTO)
    (h : (getApplicationsList connected f ⟨⟨db, none⟩, fail, 0⟩).1 =
      Except.ok (some dto)) :
    dto.applications.all isApplicationB = true := by
  obtain ⟨apps⟩ := dto
  cases connected with
  | false => simp [tryCatchJs_apply, monadM_bind, monadM_pure, M.pure_apply, M.bind_apply, throwJs_apply, runSql_apply, instMonadM, runBegin, runCommit, runSelect, runQuery, PgState.pgBegin, PgState.pgCommit, PgState.pgRollback, PgState.applyStmt, PgState.view, getApplicationsList, _getApplications, _getOffset, mkApplicationsListDTO, pageLoop_eq_drop_take] at h
  | true =>
    by_cases h1 : fail 0 = true
    · simp [tryCatchJs_apply, monadM_bind, monadM_pure, M.pure_apply, M.bind_apply, throwJs_apply, runSql_apply, instMonadM, runBegin, runCommit, runSelect, runQuery, PgState.pgBegin, PgState.pgCommit, PgState.pgRollback, PgState.applyStmt, PgState.view, getApplicationsList, _getApplications, _getOffset, mkApplicationsListDTO, pageLoop_eq_drop_take, h1] at h
    · by_cases h2 : fail 1 = true
      · simp [tryCatchJs_apply, monadM_bind, monadM_pure, M.pure_apply, M.bind_apply, throwJs_apply, runSql_apply, instMonadM, runBegin, runCommit, runSelect, runQuery, PgState.pgBegin, PgState.pgCommit, PgState.pgRollback, PgState.applyStmt, PgState.view, getApplicationsList, _getApplications, _getOffset, mkApplicationsListDTO, pageLoop_eq_drop_take, h1, h2] at h
      · by_cases h3 : fail 2 = true
        · simp [tryCatchJs_apply, monadM_bind, monadM_pure, M.pure_apply, M.bind_apply, throwJs_apply, runSql_apply, instMonadM, runBegin, runCommit, runSelect, runQuery, PgState.pgBegin, PgState.pgCommit, PgState.pgRollback, PgState.applyStmt, PgState.view, getApplicationsList, _getApplications, _getOffset, mkApplicationsListDTO, pageLoop_eq_drop_take, h1, h2, h3] at h
        · rw [Bool.not_eq_true] at h1 h2 h3
          by_cases hp : f.page > filterEmptyParamEnum.Page
          · by_cases hval : (((getApplicationsRows db f).drop
                ((f.page - 1) * 25).toNat).take 25).all isApplicationB = true
            · simp only [tryCatchJs_apply, monadM_bind, monadM_pure, M.pure_apply, M.bind_apply, throwJs_apply, runSql_apply, instMonadM, runBegin, runCommit, runSelect, runQuery, PgState.pgBegin, PgState.pgCommit, PgState.pgRollback, PgState.applyStmt, PgState.view, getApplicationsList, _getApplications, _getOffset, mkApplicationsListDTO, pageLoop_eq_drop_take, h1, h2, h3, hp, hval, Option.getD_some, Bool.not_true, Bool.not_false, Bool.false_eq_true, if_false, if_true, ite_true, ite_false, Except.ok.injEq, Option.some.injEq, ApplicationsListDTO.mk.injEq, Nat.add_zero] at h
              subst h
              exact hval
            · simp only [tryCatchJs_apply, monadM_bind, monadM_pure, M.pure_apply, M.bind_apply, throwJs_apply, runSql_apply, instMonadM, runBegin, runCommit, runSelect, runQuery, PgState.pgBegin, PgState.pgCommit, PgState.pgRollback, PgState.applyStmt, PgState.view, getApplicationsList, _getApplications, _getOffset, mkApplicationsListDTO, pageLoop_eq_drop_take, h1, h2, h3, hp, hval, Option.getD_some, Bool.not_true, Bool.not_false, Bool.false_eq_true, if_false, if_true, ite_true, ite_false, Except.ok.injEq, Option.some.injEq, ApplicationsListDTO.mk.injEq, Nat.add_zero] at h
              exact Option.noConfusion h
          · by_cases hval : (getApplicationsRows db f).all isApplicationB = true
            · simp only [tryCatchJs_apply, monadM_bind, monadM_pure, M.pure_apply, M.bind_apply, throwJs_apply, runSql_apply, instMonadM, runBegin, runCommit, runSelect, runQuery, PgState.pgBegin, PgState.pgCommit, PgState.pgRollback, PgState.applyStmt, PgState.view, getApplicationsList, _getApplications, _getOffset, mkApplicationsListDTO, pageLoop_eq_drop_take, h1, h2, h3, hp, hval, Option.getD_some, Bool.not_true, Bool.not_false, Bool.false_eq_true, if_false, if_true, ite_true, ite_false, Except.ok.injEq, Option.some.injEq, ApplicationsListDTO.mk.injEq, Nat.add_zero] at h
              subst h
              exact hval
            · simp only [tryCatchJs_apply, monadM_bind, monadM_pure, M.pure_apply, M.bind_apply, throwJs_apply, runSql_apply, instMonadM, runBegin, runCommit, runSelect, runQuery, PgState.pgBegin, PgState.pgCommit, PgState.pgRollback, PgState.applyStmt, PgState.view, getApplicationsList, _getApplications, _getOffset, mkApplicationsListDTO, pageLoop_eq_drop_take, h1, h2, h3, hp, hval, Option.getD_some, Bool.not_true, Bool.not_false, Bool.false_eq_true, if_false, if_true, ite_true, ite_false, Except.ok.injEq, Option.some.injEq, ApplicationsListDTO.mk.injEq, Nat.add_zero] at h
              exact Option.noConfusion h

/-- C9 counterexample: the store holds a matched application row whose
first name contains a digit, violating `Validators.isApplication`; with
page 2 requested the violating row lies outside the returned window, so the
call returns an empty list instead of the claimed null. -/
theorem listApplications_bad_row_kept_hidden :
    (getApplicationsRows sampleDBBadName filterPage2).all isApplicationB = false ∧
    (getApplicationsList true filterPage2
        ⟨⟨sampleDBBadName, none⟩, noFail, 0⟩).1 =
      Except.ok (some ⟨[]⟩) :=
  ⟨rfl, rfl⟩

/-- Witness for C9 at a concrete store returning a non-null list. -/
theorem listApplications_nonnull_rows_valid_witness :
    ((⟨[⟨1, "Alice", "Aal"⟩, ⟨2, "Alice", "Aal"⟩]⟩ :
      ApplicationsListDTO)).applications.all isApplicationB = true :=
  listApplications_nonnull_rows_valid true sampleDBList filterAll noFail
    ⟨[⟨1, "Alice", "Aal"⟩, ⟨2, "Alice", "Aal"⟩]⟩ rfl

end Recruitment
